import Mathlib

/-!
Shallow embedding of the balance / interest-accrual fragment of the
gssteel-grihasajjwa ledger application, together with theorems checking the
natural-language specification against the code.

Modelling conventions:
* JavaScript numbers (amounts, rates) are modelled as exact rationals `ℚ`.
* Timestamps (`Date.getTime()` values) are integer milliseconds `ℤ`; a JS
  `Date` object is a record carrying the projections the code reads
  (`getTime`, `getFullYear`, `getMonth`, `getDate`).
* Enumerated string columns (`transaction_type`, `interest_type`) are `String`
  (the database types them as plain strings); nullable columns are `Option`.
* Effectful React handlers are modelled by their pure decision core: the
  validation/computation performed before the network write, returning either
  a rejection message or the record that would be inserted.
-/

namespace GSSteel

/-- Milliseconds per day, the `1000 * 3600 * 24` divisor used by the code. -/
def msPerDay : ℚ := 86400000

/-- A JS `Date` as the code observes it: `time` is `getTime()` (ms since
epoch), and `year`/`month`/`day` are `getFullYear()`/`getMonth()`/`getDate()`. -/
structure JsDate where
  time : ℤ
  year : ℤ
  month : ℤ
  day : ℤ
deriving DecidableEq

/-- A row of the `bills` table as selected in `MahajanDetails.tsx`. -/
structure Bill where
  id : String
  bill_amount : ℚ
  interest_rate : Option ℚ
  interest_type : Option String
  bill_date : JsDate
  is_active : Bool
deriving DecidableEq

/-- A row of the `bill_transactions` table (fields the computations read). -/
structure BillTransaction where
  bill_id : String
  amount : ℚ
  payment_date : ℤ
  transaction_type : String
deriving DecidableEq

/-- `calculateBillBalance` from `MahajanDetails.tsx` (lines 140–145): filters
the transactions of the bill, sums ALL their amounts (no `transaction_type`
filter), and subtracts from the bill amount; `0` when the bill is absent. -/
def calculateBillBalance (bills : List Bill) (transactions : List BillTransaction)
    (billId : String) : ℚ :=
  let billTransactions := transactions.filter (fun t => t.bill_id == billId)
  let totalPaid := billTransactions.foldl (fun sum t => sum + t.amount) 0
  match bills.find? (fun b => b.id == billId) with
  | some bill => bill.bill_amount - totalPaid
  | none => 0

/-- `totalPaid` accumulated by `fetchReminders` in `BillReminders.tsx`
(lines 96–103): only `payment` and `principal` kinds contribute. -/
def brTotalPaid (txs : List BillTransaction) : ℚ :=
  txs.foldl
    (fun s tx =>
      if tx.transaction_type == "payment" || tx.transaction_type == "principal"
      then s + tx.amount else s) 0

/-- `totalInterestPaid` accumulated by `fetchReminders` in `BillReminders.tsx`. -/
def brTotalInterestPaid (txs : List BillTransaction) : ℚ :=
  txs.foldl
    (fun s tx => if tx.transaction_type == "interest" then s + tx.amount else s) 0

/-- `balance` computed by `fetchReminders` (line 106):
`bill.bill_amount - totalPaid`. -/
def brBalance (bill_amount : ℚ) (txs : List BillTransaction) : ℚ :=
  bill_amount - brTotalPaid txs

/-- A row of the `sales` table as used by `RecordSalePaymentDialog`. -/
structure SaleRow where
  id : String
  sale_amount : ℚ
deriving DecidableEq

/-- A row of the `sale_transactions` table. -/
structure SaleTransaction where
  sale_id : String
  amount : ℚ
  transaction_type : String
deriving DecidableEq

/-- `outstanding` computed per sale by `fetchCustomerSales` in
`RecordSalePaymentDialog` (lines 110–126): `sale_amount` minus the sum of
`payment`-kind amounts plus the sum of `refund`-kind amounts. -/
def saleOutstanding (sale : SaleRow) (transData : List SaleTransaction) : ℚ :=
  let transactions := transData.filter (fun t => t.sale_id == sale.id)
  let totalPaid := (transactions.filter (fun t => t.transaction_type == "payment")).foldl
    (fun sum t => sum + t.amount) 0
  let totalRefund := (transactions.filter (fun t => t.transaction_type == "refund")).foldl
    (fun sum t => sum + t.amount) 0
  sale.sale_amount - totalPaid + totalRefund

/-- The spec's Balance Reducer `totalPaid`: sum of amounts whose kind is
`payment` or `principal` (spec §4.1), stated from the spec's words for
comparison with the code's reducers. -/
def specTotalPaid (txs : List BillTransaction) : ℚ :=
  ((txs.filter (fun t =>
    t.transaction_type == "payment" || t.transaction_type == "principal")).map
      (fun t => t.amount)).sum

/-- The spec's Balance Reducer balance: `principal − totalPaid` (spec §4.1). -/
def specBalance (principal : ℚ) (txs : List BillTransaction) : ℚ :=
  principal - specTotalPaid txs

/-- JS `Math.round(x) = ⌊x + 0.5⌋`; the code rounds to 2 decimals via
`Math.round(interest * 100) / 100` (`MahajanDetails.tsx` line 166). -/
def round2 (q : ℚ) : ℚ := ((⌊q * 100 + 1 / 2⌋ : ℤ) : ℚ) / 100

/-- `Math.ceil((endDate.getTime() - startDate.getTime()) / (1000*3600*24))`,
the day count of the `daily` branch of `calculateInterest`. -/
def ceilDaysDiff (startMs endMs : ℤ) : ℤ := ⌈((endMs - startMs : ℤ) : ℚ) / msPerDay⌉

/-- The `interest` local computed by `calculateInterest` in
`MahajanDetails.tsx` (lines 150–164) before the final rounding: the raw
accrual for the `daily` and `monthly` branches, `0` for any other type. -/
def calculateInterestAccrual (bill : Bill) (balance : ℚ) (now : JsDate) : ℚ :=
  let rate := bill.interest_rate.getD 0 / 100
  if bill.interest_type = some "daily" then
    let daysDiff := ceilDaysDiff bill.bill_date.time now.time
    balance * rate * ((daysDiff : ℚ) / 365)
  else if bill.interest_type = some "monthly" then
    let months := (now.year - bill.bill_date.year) * 12 + (now.month - bill.bill_date.month)
    let daysInMonth := ((now.day - bill.bill_date.day : ℤ) : ℚ) / 30
    balance * rate * ((months : ℚ) + daysInMonth)
  else 0

/-- `calculateInterest` from `MahajanDetails.tsx` (lines 147–167). The JS
guard `!bill.interest_rate` is true exactly when the rate is `null` or `0`
(falsiness), in which case `0` is returned before any date arithmetic; the
result is otherwise the accrual rounded by `Math.round(x*100)/100`. `now` is
the `new Date()` the code constructs (explicit here to keep the function pure). -/
def calculateInterest (bill : Bill) (balance : ℚ) (now : JsDate) : ℚ :=
  if bill.interest_rate.getD 0 = 0 ∨ bill.interest_type = some "none" then 0
  else round2 (calculateInterestAccrual bill balance now)

/-- `Math.max(0, Math.floor((asOf - due) / (1000*60*60*24)))`, the clamped
day count of `fetchReminders` in `BillReminders.tsx` (line 111). -/
def brDaysSinceDue (dueMs asOfMs : ℤ) : ℤ :=
  max 0 ⌊((asOfMs - dueMs : ℤ) : ℚ) / msPerDay⌋

/-- The interest computed by `fetchReminders` in `BillReminders.tsx`
(lines 109–115): `simple` accrues daily on the clamped day count since the
due date, `flat` is a one-time charge, anything else (or a rate that is not
`> 0`; JS `null > 0` is false, as is `getD 0`) yields `0`. No rounding is
applied at this call site. -/
def brInterest (itype : Option String) (irate : Option ℚ) (balance : ℚ)
    (dueMs asOfMs : ℤ) : ℚ :=
  let rate := irate.getD 0
  if itype = some "simple" ∧ 0 < rate then
    balance * rate * ((brDaysSinceDue dueMs asOfMs : ℚ)) / (100 * 365)
  else if itype = some "flat" ∧ 0 < rate then
    balance * rate / 100
  else 0

/-- The spec's simple-daily accrual formula (spec §4.2):
`balance * (rate/100) * (daysElapsed / 365)` with
`daysElapsed = ceil(asOfDate − originDate)` in whole days. -/
def specSimpleDailyInterest (balance rate : ℚ) (originMs asOfMs : ℤ) : ℚ :=
  balance * (rate / 100) * ((ceilDaysDiff originMs asOfMs : ℚ) / 365)

/-- The `Sale` view built by `fetchCustomerSales` and offered in the dialog
(`RecordSalePaymentDialog`): id, number, amount and computed outstanding. -/
structure SaleView where
  id : String
  sale_number : String
  sale_amount : ℚ
  outstanding : ℚ
deriving DecidableEq

/-- The validated form data `onSubmit` receives in `RecordSalePaymentDialog`. -/
structure SalePaymentForm where
  sale_id : String
  amount : ℚ
  payment_date : ℤ
  payment_mode : String
  transaction_type : String
deriving DecidableEq

/-- Outcome of a payment-submission handler: either rejected before the
network write with a user-facing message, or the row handed to `insert`. -/
inductive SaleSubmitOutcome where
  | rejected (msg : String)
  | insert (rec : SaleTransaction)
deriving DecidableEq

/-- Decision core of `onSubmit` in `RecordSalePaymentDialog` (lines 138–166):
an unknown sale id is rejected, a payment amount strictly exceeding the
selected sale's outstanding is rejected before submission, otherwise the
`sale_transactions` row is inserted. -/
def onSubmitSalePayment (sales : List SaleView) (data : SalePaymentForm) :
    SaleSubmitOutcome :=
  match sales.find? (fun s => s.id == data.sale_id) with
  | none => .rejected "Please select a valid sale"
  | some selectedSale =>
    if selectedSale.outstanding < data.amount then
      .rejected "Payment amount cannot exceed outstanding amount"
    else
      .insert { sale_id := data.sale_id, amount := data.amount,
                transaction_type := data.transaction_type }

/-- Outcome of the bill-payment handler in `MahajanDetails`. -/
inductive BillSubmitOutcome where
  | rejected (msg : String)
  | insert (bill_id : String) (amount : ℚ) (transaction_type : String)
deriving DecidableEq

/-- Decision core of `handlePaymentSubmit` in `MahajanDetails.tsx`
(lines 178–204): `parseFloat` of the entered text is `none` for `NaN`;
the only validation is `isNaN(amount) || amount <= 0` — the handler never
consults the bill's outstanding balance before inserting. -/
def handlePaymentSubmit (selectedBillId : String) (parsedAmount : Option ℚ)
    (paymentType : String) : BillSubmitOutcome :=
  match parsedAmount with
  | none => .rejected "Please enter a valid amount"
  | some amount =>
    if amount ≤ 0 then .rejected "Please enter a valid amount"
    else .insert selectedBillId amount paymentType

/-- A `bill_transactions` row as nested in the `MahajanSummary` query
(lines 88–92). The query selects only `id`, `amount` and `payment_date`;
the row's `transaction_type` column (kept here) is never read by the
aggregation. -/
structure SummaryTransaction where
  amount : ℚ
  payment_date : ℤ
  transaction_type : String
deriving DecidableEq

/-- A `bills` row as nested in the `MahajanSummary` query. -/
structure SummaryBill where
  id : String
  bill_amount : ℚ
  is_active : Bool
  bill_transactions : List SummaryTransaction
deriving DecidableEq

/-- A `mahajans` row with its joined bills, as fetched by `fetchSummaryData`. -/
structure MahajanRow where
  id : String
  name : String
  bills : List SummaryBill
deriving DecidableEq

/-- The `MahajanSummaryData` record produced per mahajan. -/
structure MahajanSummaryData where
  mahajan_id : String
  total_bills : ℕ
  active_bills : ℕ
  total_bill_amount : ℚ
  total_paid_amount : ℚ
  outstanding_balance : ℚ
  last_payment_date : Option ℤ
  avg_payment_amount : ℚ
  payment_frequency : ℕ
deriving DecidableEq

/-- All transactions of a mahajan's bills, flattened
(`bills.flatMap(bill => bill.bill_transactions)`). -/
def allTransactionsOf (m : MahajanRow) : List SummaryTransaction :=
  m.bills.foldr (fun b acc => b.bill_transactions ++ acc) []

/-- The `lastPaymentDate` of `fetchSummaryData` (lines 122–124): the source
sorts all transactions by `payment_date` descending and takes the first
row's date when the list is non-empty — that is, the maximum `payment_date`
over ALL transactions — and `undefined` otherwise. -/
def lastPaymentDateOf (txs : List SummaryTransaction) : Option ℤ :=
  txs.foldl
    (fun acc t =>
      match acc with
      | none => some t.payment_date
      | some d => some (max d t.payment_date)) none

/-- The per-mahajan aggregation of `fetchSummaryData` in
`MahajanSummary.tsx` (lines 109–143). -/
def processMahajan (m : MahajanRow) : MahajanSummaryData :=
  let bills := m.bills
  let totalBills := bills.length
  let activeBills := (bills.filter (fun b => b.is_active)).length
  let totalBillAmount := bills.foldl (fun s b => s + b.bill_amount) 0
  let allTransactions := allTransactionsOf m
  let totalPaidAmount := allTransactions.foldl (fun s t => s + t.amount) 0
  let outstandingBalance := totalBillAmount - totalPaidAmount
  let lastPaymentDate := lastPaymentDateOf allTransactions
  let avgPaymentAmount :=
    if 0 < allTransactions.length then totalPaidAmount / (allTransactions.length : ℚ)
    else 0
  let paymentFrequency := allTransactions.length
  { mahajan_id := m.id
    total_bills := totalBills
    active_bills := activeBills
    total_bill_amount := totalBillAmount
    total_paid_amount := totalPaidAmount
    outstanding_balance := outstandingBalance
    last_payment_date := lastPaymentDate
    avg_payment_amount := avgPaymentAmount
    payment_frequency := paymentFrequency }

/-- The spec's "last payment date": max transaction date across
`payment`-kind transactions only, or absent (spec §4.3), stated from the
spec's words for comparison with the code's aggregation. -/
def specLastPaymentDate (txs : List SummaryTransaction) : Option ℤ :=
  lastPaymentDateOf (txs.filter (fun t => t.transaction_type == "payment"))

/-- The date-range filter of `fetchSummaryData` (lines 145–157), applied when
both a from-date and a to-date are specified: a row is kept iff its
`last_payment_date` exists and `fromDate <= paymentDate <= toDate`; rows
without a last payment date return `false`. -/
def filterByDateRange (rows : List MahajanSummaryData) (startDate endDate : ℤ) :
    List MahajanSummaryData :=
  rows.filter
    (fun row =>
      match row.last_payment_date with
      | some d => decide (startDate ≤ d ∧ d ≤ endDate)
      | none => false)

/- Fold/sum helper lemmas shared by several claims. -/

theorem foldl_add_eq_sum {α : Type} (f : α → ℚ) (l : List α) (init : ℚ) :
    l.foldl (fun s a => s + f a) init = init + (l.map f).sum := by
  induction l generalizing init with
  | nil => simp
  | cons a as ih => simp [List.foldl_cons, ih, add_assoc]

theorem foldl_add_if_eq_sum_filter {α : Type} (p : α → Bool) (f : α → ℚ)
    (l : List α) (init : ℚ) :
    l.foldl (fun s a => if p a then s + f a else s) init
      = init + ((l.filter p).map f).sum := by
  induction l generalizing init with
  | nil => simp
  | cons a as ih =>
    by_cases h : p a = true
    · simp [List.foldl_cons, h, ih, add_assoc]
    · simp only [Bool.not_eq_true] at h
      simp [List.foldl_cons, h, ih]

/- Concrete fixtures used by counterexamples and witnesses. -/

/-- A date whose every projection is zero. -/
def dateZero : JsDate := ⟨0, 0, 0, 0⟩

/-- A bill of amount 1000 with no interest configured. -/
def bill1000 : Bill :=
  { id := "b1", bill_amount := 1000, interest_rate := none, interest_type := none,
    bill_date := dateZero, is_active := true }

/-- An `interest`-kind transaction of amount 100 against `bill1000`. -/
def txInterest100 : BillTransaction :=
  { bill_id := "b1", amount := 100, payment_date := 0, transaction_type := "interest" }

/-- C1, counterexample: on bill `b1` of amount 1000 carrying a single
`interest`-kind transaction of 100, the spec's Balance Reducer keeps the
balance at 1000 (interest-kind amounts do not reduce it), but
`calculateBillBalance` returns 900 — it sums every transaction regardless of
kind, so the claim is false on `MahajanDetails.calculateBillBalance`. -/
theorem c1_kind_filter_counterexample :
    calculateBillBalance [bill1000] [txInterest100] "b1" = 900 ∧
    specBalance bill1000.bill_amount [txInterest100] = 1000 ∧
    calculateBillBalance [bill1000] [txInterest100] "b1"
      ≠ specBalance bill1000.bill_amount [txInterest100] := by
  refine ⟨?h1, ?h2, ?h3⟩
  case h1 =>
    norm_num [calculateBillBalance, bill1000, txInterest100]
  case h2 =>
    simp only [specBalance, specTotalPaid, bill1000, txInterest100]
    simp
  case h3 =>
    simp only [calculateBillBalance, specBalance, specTotalPaid, bill1000,
      txInterest100]
    simp

/-- C1, amended: the reminder-screen balance (`fetchReminders`) follows the
spec reduction exactly (`payment`/`principal` kinds subtracted), the sale
outstanding (`fetchCustomerSales`) subtracts `payment`-kind sums and adds
back `refund`-kind sums, but `calculateBillBalance` in `MahajanDetails`
subtracts the sum of ALL transaction amounts of the bill regardless of kind. -/
theorem c1_balance_reducers (bill_amount : ℚ) (txs : List BillTransaction)
    (sale : SaleRow) (transData : List SaleTransaction)
    (bills : List Bill) (transactions : List BillTransaction)
    (billId : String) (bill : Bill)
    (hfind : bills.find? (fun b => b.id == billId) = some bill) :
    brBalance bill_amount txs = specBalance bill_amount txs ∧
    saleOutstanding sale transData
      = sale.sale_amount
        - (((transData.filter (fun t => t.sale_id == sale.id)).filter
            (fun t => t.transaction_type == "payment")).map (fun t => t.amount)).sum
        + (((transData.filter (fun t => t.sale_id == sale.id)).filter
            (fun t => t.transaction_type == "refund")).map (fun t => t.amount)).sum ∧
    calculateBillBalance bills transactions billId
      = bill.bill_amount
        - ((transactions.filter (fun t => t.bill_id == billId)).map
            (fun t => t.amount)).sum := by
  refine ⟨?_, ?_, ?_⟩
  · unfold brBalance brTotalPaid specBalance specTotalPaid
    rw [foldl_add_if_eq_sum_filter]
    ring
  · simp only [saleOutstanding,
      foldl_add_eq_sum (fun t : SaleTransaction => t.amount)]
    ring
  · simp only [calculateBillBalance, hfind,
      foldl_add_eq_sum (fun t : BillTransaction => t.amount)]
    ring

/-- C1, witness: the amended reducer equations at concrete inputs. -/
theorem c1_balance_reducers_witness :
    brBalance 1000 [txInterest100] = specBalance 1000 [txInterest100] ∧
    calculateBillBalance [bill1000] [txInterest100] "b1"
      = bill1000.bill_amount
        - (([txInterest100].filter (fun t => t.bill_id == "b1")).map
            (fun t => t.amount)).sum := by
  have h := c1_balance_reducers 1000 [txInterest100] ⟨"s1", 500⟩ []
    [bill1000] [txInterest100] "b1" bill1000 (by decide)
  exact ⟨h.1, h.2.2⟩

/-- A daily-interest bill dated 10 days (in ms) after the epoch. -/
def billDaily10 : Bill :=
  { id := "b2", bill_amount := 1000, interest_rate := some 10,
    interest_type := some "daily", bill_date := ⟨864000000, 1970, 0, 11⟩,
    is_active := true }

/-- C2, counterexample: `calculateInterest` does not clamp a negative elapsed
day count. With a 10%-daily bill dated 10 days after the as-of instant, the
day count is `ceil(-10) = -10` and the returned interest is `-2.74 < 0`. -/
theorem c2_negative_interest_counterexample :
    calculateInterest billDaily10 1000 dateZero < 0 := by
  have hdays : ceilDaysDiff 864000000 0 = -10 := by
    unfold ceilDaysDiff msPerDay
    rw [show (((0 : ℤ) - 864000000 : ℤ) : ℚ) / 86400000 = ((-10 : ℤ) : ℚ) by
      norm_num, Int.ceil_intCast]
  unfold calculateInterest calculateInterestAccrual
  simp only [billDaily10, dateZero]
  simp [hdays]
  norm_num [round2]

/-- C2, amended: the reminder-screen calculator (`fetchReminders`) clamps the
elapsed day count at zero (`Math.max(0, …)`) and returns a non-negative
interest for every method whenever the balance is non-negative; but
`MahajanDetails.calculateInterest` performs no clamping, so an as-of date
before the origin date yields a negative interest amount there. -/
theorem c2_brInterest_nonneg (itype : Option String) (irate : Option ℚ)
    (balance : ℚ) (dueMs asOfMs : ℤ) (hbal : 0 ≤ balance) :
    0 ≤ brInterest itype irate balance dueMs asOfMs := by
  simp only [brInterest]
  split_ifs with h1 h2
  · have hdays : (0 : ℚ) ≤ ((brDaysSinceDue dueMs asOfMs : ℤ) : ℚ) := by
      have h0 : (0 : ℤ) ≤ brDaysSinceDue dueMs asOfMs := le_max_left 0 _
      exact_mod_cast h0
    have := mul_nonneg (mul_nonneg hbal (le_of_lt h1.2)) hdays
    positivity
  · have := mul_nonneg hbal (le_of_lt h2.2)
    positivity
  · exact le_refl 0

/-- C2, witness: the non-negativity theorem at a concrete reminder input
(10%-simple bill, one day past due, balance 100). -/
theorem c2_brInterest_nonneg_witness :
    0 ≤ brInterest (some "simple") (some 10) 100 0 86400000 :=
  c2_brInterest_nonneg (some "simple") (some 10) 100 0 86400000 (by norm_num)

/-- C3: for the simple-daily method both call sites follow the spec formula
`balance * (rate/100) * (daysElapsed/365)` with `daysElapsed` the ceiling of
the elapsed time in whole days. `MahajanDetails.calculateInterest` returns
exactly the 2-decimal rounding of that accrual; `fetchReminders` (whose date
inputs are whole-day date strings, with the due date on or before the as-of
date by its query filter `due_date <= dateStr`) returns the formula value
unrounded, the floor/clamp of its day count agreeing with the ceiling on
whole-day differences. -/
theorem c3_simple_daily_formula (bill : Bill) (balance : ℚ) (now : JsDate)
    (r : ℚ) (hty : bill.interest_type = some "daily")
    (hr : bill.interest_rate = some r) (hpos : 0 < r)
    (bal2 rate2 : ℚ) (kd ka : ℤ) (hdays : kd ≤ ka) (hpos2 : 0 < rate2) :
    calculateInterest bill balance now
      = round2 (specSimpleDailyInterest balance r bill.bill_date.time now.time) ∧
    brInterest (some "simple") (some rate2) bal2 (86400000 * kd) (86400000 * ka)
      = specSimpleDailyInterest bal2 rate2 (86400000 * kd) (86400000 * ka) := by
  have hcast : ((86400000 * ka - 86400000 * kd : ℤ) : ℚ) / msPerDay
      = ((ka - kd : ℤ) : ℚ) := by
    unfold msPerDay
    push_cast
    field_simp
    ring
  have hceil : ceilDaysDiff (86400000 * kd) (86400000 * ka) = ka - kd := by
    unfold ceilDaysDiff
    rw [hcast, Int.ceil_intCast]
  have hfloor : brDaysSinceDue (86400000 * kd) (86400000 * ka) = ka - kd := by
    unfold brDaysSinceDue
    rw [hcast, Int.floor_intCast]
    exact max_eq_right (sub_nonneg.mpr hdays)
  constructor
  · unfold calculateInterest calculateInterestAccrual specSimpleDailyInterest
    rw [hr, hty]
    have hne : ¬ ((some r : Option ℚ).getD 0 = 0 ∨
        (some "daily" : Option String) = some "none") := by
      simp only [Option.getD_some]
      push_neg
      exact ⟨ne_of_gt hpos, by simp⟩
    rw [if_neg hne]
    simp only [Option.getD_some]
    norm_num
  · unfold brInterest specSimpleDailyInterest
    simp only [Option.getD_some]
    rw [if_pos ⟨trivial, hpos2⟩, hfloor, hceil]
    ring

/-- C3, witness: the formula equalities at a concrete input — a 10%-daily
bill originated at the epoch read one day later, and a whole-day reminder
pair three days apart with rate 5. -/
theorem c3_simple_daily_formula_witness :
    calculateInterest
        { id := "b3", bill_amount := 1000, interest_rate := some 10,
          interest_type := some "daily", bill_date := ⟨0, 1970, 0, 1⟩,
          is_active := true } 1000 ⟨86400000, 1970, 0, 2⟩
      = round2 (specSimpleDailyInterest 1000 10 0 86400000) ∧
    brInterest (some "simple") (some 5) 100 (86400000 * 0) (86400000 * 3)
      = specSimpleDailyInterest 100 5 (86400000 * 0) (86400000 * 3) :=
  c3_simple_daily_formula
    { id := "b3", bill_amount := 1000, interest_rate := some 10,
      interest_type := some "daily", bill_date := ⟨0, 1970, 0, 1⟩,
      is_active := true } 1000 ⟨86400000, 1970, 0, 2⟩ 10 rfl rfl (by norm_num)
    100 5 0 3 (by norm_num) (by norm_num)

/-- A bill of amount 100 with no transactions (outstanding balance 100). -/
def bill100 : Bill :=
  { id := "b1", bill_amount := 100, interest_rate := none, interest_type := none,
    bill_date := dateZero, is_active := true }

/-- C4, counterexample: bill `b1` has an outstanding balance of 100, yet
submitting a bill payment of 200 through `handlePaymentSubmit` passes its
only validation (`isNaN(amount) || amount <= 0`) and inserts the
transaction — the over-balance payment is not rejected. -/
theorem c4_overpayment_counterexample :
    calculateBillBalance [bill100] [] "b1" = 100 ∧
    handlePaymentSubmit "b1" (some 200) "principal"
      = .insert "b1" 200 "principal" := by
  constructor
  · norm_num [calculateBillBalance, bill100]
  · norm_num [handlePaymentSubmit]

/-- C4, amended: sale payments (`RecordSalePaymentDialog.onSubmit`) are
rejected before submission with a user-facing message — and no row is
handed to `insert` — whenever the amount strictly exceeds the selected
sale's outstanding; bill payments (`MahajanDetails.handlePaymentSubmit`)
are validated only for being a positive number, so any positive amount,
including one exceeding the bill's outstanding balance, is inserted. -/
theorem c4_payment_validation (sales : List SaleView) (data : SalePaymentForm)
    (sale : SaleView)
    (hfind : sales.find? (fun s => s.id == data.sale_id) = some sale)
    (hover : sale.outstanding < data.amount)
    (billId : String) (a : ℚ) (ty : String) (hpos : 0 < a) :
    onSubmitSalePayment sales data
      = .rejected "Payment amount cannot exceed outstanding amount" ∧
    handlePaymentSubmit billId (some a) ty = .insert billId a ty := by
  constructor
  · unfold onSubmitSalePayment
    rw [hfind]
    simp only [if_pos hover]
  · unfold handlePaymentSubmit
    simp only [if_neg (not_le.mpr hpos)]

/-- C4, witness: the validation behaviours at a concrete input — a sale with
outstanding 50 receiving a payment of 80 and a bill payment of 200. -/
theorem c4_payment_validation_witness :
    onSubmitSalePayment [⟨"s1", "SN-1", 500, 50⟩]
        ⟨"s1", 80, 0, "cash", "payment"⟩
      = .rejected "Payment amount cannot exceed outstanding amount" ∧
    handlePaymentSubmit "b1" (some 200) "principal"
      = .insert "b1" 200 "principal" :=
  c4_payment_validation [⟨"s1", "SN-1", 500, 50⟩]
    ⟨"s1", 80, 0, "cash", "payment"⟩ ⟨"s1", "SN-1", 500, 50⟩
    (by simp [List.find?]) (by norm_num) "b1" 200 "principal" (by norm_num)

/-- A value is representable with two decimal places. -/
def isTwoDecimal (q : ℚ) : Prop := ∃ n : ℤ, q * 100 = (n : ℚ)

theorem round2_isTwoDecimal (q : ℚ) : isTwoDecimal (round2 q) := by
  refine ⟨⌊q * 100 + 1 / 2⌋, ?_⟩
  unfold round2
  field_simp

theorem round2_abs_le (q : ℚ) : |round2 q - q| ≤ 1 / 200 := by
  have h1 : ((⌊q * 100 + 1 / 2⌋ : ℤ) : ℚ) ≤ q * 100 + 1 / 2 := Int.floor_le _
  have h2 : q * 100 + 1 / 2 - 1 < ((⌊q * 100 + 1 / 2⌋ : ℤ) : ℚ) :=
    Int.sub_one_lt_floor _
  unfold round2
  rw [abs_le]
  constructor <;> [linarith; linarith]

theorem round2_zero : round2 0 = 0 := by
  unfold round2
  norm_num

/-- C5, counterexample: the reminder-screen calculator applies no rounding at
all — on a 1%-simple bill of balance 1 one day past due it returns
`1/36500`, which is not representable with two decimal places, so the claim
that every computed interest is returned rounded to 2 decimals is false. -/
theorem c5_unrounded_counterexample :
    ¬ isTwoDecimal (brInterest (some "simple") (some 1) 1 0 86400000) := by
  have hdays : brDaysSinceDue 0 86400000 = 1 := by
    unfold brDaysSinceDue msPerDay
    rw [show ((86400000 - 0 : ℤ) : ℚ) / 86400000 = ((1 : ℤ) : ℚ) by norm_num,
      Int.floor_intCast]
    exact max_eq_right (by norm_num)
  have hval : brInterest (some "simple") (some 1) 1 0 86400000 = 1 / 36500 := by
    unfold brInterest
    simp only [Option.getD_some]
    rw [if_pos ⟨trivial, by norm_num⟩, hdays]
    norm_num
  rw [hval]
  rintro ⟨n, hn⟩
  have h1 : (n : ℚ) = 1 / 365 := by rw [← hn]; norm_num
  have h2 : (0 : ℤ) < n := by
    have : (0 : ℚ) < (n : ℚ) := by rw [h1]; norm_num
    exact_mod_cast this
  have h3 : (n : ℤ) < 1 := by
    have : ((n : ℤ) : ℚ) < 1 := by rw [h1]; norm_num
    exact_mod_cast this
  omega

/-- C5, amended: `MahajanDetails.calculateInterest` does return a two-decimal
amount, obtained from its raw accrual by JS `Math.round(x*100)/100` — i.e.
`⌊x·100 + ½⌋/100`, ties rounding toward +∞, which is half-up rounding for
the non-negative amounts — and the returned value differs from the raw
accrual by at most `1/200`; the reminder-screen calculator (`fetchReminders`)
returns its interest unrounded. -/
theorem c5_two_decimal_rounding (bill : Bill) (balance : ℚ) (now : JsDate) :
    calculateInterest bill balance now
      = round2 (if bill.interest_rate.getD 0 = 0 ∨ bill.interest_type = some "none"
                then 0 else calculateInterestAccrual bill balance now) ∧
    isTwoDecimal (calculateInterest bill balance now) ∧
    |calculateInterest bill balance now
      - (if bill.interest_rate.getD 0 = 0 ∨ bill.interest_type = some "none"
         then 0 else calculateInterestAccrual bill balance now)| ≤ 1 / 200 := by
  by_cases hg : bill.interest_rate.getD 0 = 0 ∨ bill.interest_type = some "none"
  · unfold calculateInterest
    rw [if_pos hg, if_pos hg, round2_zero]
    refine ⟨rfl, ⟨0, by norm_num⟩, by norm_num⟩
  · unfold calculateInterest
    rw [if_neg hg, if_neg hg]
    exact ⟨rfl, round2_isTwoDecimal _, round2_abs_le _⟩

/-- C6: the flat method of the reminder-screen calculator is invariant to
the as-of date — any two (due, as-of) date pairs give the same interest for
a fixed balance and rate — and for a positive rate (a zero or absent rate is
treated as "no interest" per spec §4.2) it equals `balance * (rate/100)`. -/
theorem c6_flat_invariant (irate : Option ℚ) (balance : ℚ) (d1 a1 d2 a2 : ℤ)
    (r : ℚ) (hr : irate = some r) :
    brInterest (some "flat") irate balance d1 a1
      = brInterest (some "flat") irate balance d2 a2 ∧
    (0 < r →
      brInterest (some "flat") irate balance d1 a1 = balance * (r / 100)) := by
  subst hr
  constructor
  · unfold brInterest
    simp
  · intro hpos
    unfold brInterest
    simp only [Option.getD_some]
    rw [if_neg (by simp), if_pos ⟨trivial, hpos⟩]
    ring

/-- C6, witness: the spec's Example 2 — balance 1000, rate 12, flat —
gives 120 at any pair of dates. -/
theorem c6_flat_invariant_witness :
    brInterest (some "flat") (some 12) 1000 0 86400000
      = brInterest (some "flat") (some 12) 1000 5 999999999 ∧
    (0 < (12 : ℚ) →
      brInterest (some "flat") (some 12) 1000 0 86400000 = 1000 * (12 / 100)) :=
  c6_flat_invariant (some 12) 1000 0 86400000 5 999999999 12 rfl

/-- C7: a mahajan with an empty bill list aggregates to all-zero counts and
amounts, an absent last payment date and a zero average — the aggregation is
total, so no error is possible. -/
theorem c7_empty_aggregates (m : MahajanRow) (h : m.bills = []) :
    processMahajan m
      = { mahajan_id := m.id, total_bills := 0, active_bills := 0,
          total_bill_amount := 0, total_paid_amount := 0,
          outstanding_balance := 0, last_payment_date := none,
          avg_payment_amount := 0, payment_frequency := 0 } := by
  unfold processMahajan allTransactionsOf lastPaymentDateOf
  rw [h]
  simp

/-- C7, witness: the all-zero aggregate on a concrete mahajan with no bills. -/
theorem c7_empty_aggregates_witness :
    processMahajan ⟨"m1", "M", []⟩
      = { mahajan_id := "m1", total_bills := 0, active_bills := 0,
          total_bill_amount := 0, total_paid_amount := 0,
          outstanding_balance := 0, last_payment_date := none,
          avg_payment_amount := 0, payment_frequency := 0 } :=
  c7_empty_aggregates ⟨"m1", "M", []⟩ rfl

/-- C9: the average payment amount is guarded — whenever a mahajan's bills
carry no transactions at all, `avg_payment_amount` is the guard's `0`, not a
division by zero. -/
theorem c9_guarded_average (m : MahajanRow)
    (h : (allTransactionsOf m).length = 0) :
    (processMahajan m).avg_payment_amount = 0 := by
  unfold processMahajan
  simp [h]

/-- C9, witness: the guarded average on a mahajan holding one bill with an
empty transaction list. -/
theorem c9_guarded_average_witness :
    (processMahajan ⟨"m2", "N", [⟨"b9", 50, true, []⟩]⟩).avg_payment_amount
      = 0 :=
  c9_guarded_average ⟨"m2", "N", [⟨"b9", 50, true, []⟩]⟩ rfl

/- Helper lemmas about the fold computing the last payment date. -/

theorem lastFold_some (l : List SummaryTransaction) (d : ℤ) :
    l.foldl
      (fun acc t =>
        match acc with
        | none => some t.payment_date
        | some e => some (max e t.payment_date)) (some d)
      = some (l.foldl (fun x t => max x t.payment_date) d) := by
  induction l generalizing d with
  | nil => rfl
  | cons t ts ih => simp only [List.foldl_cons, ih]

theorem lastPaymentDateOf_cons (t : SummaryTransaction)
    (ts : List SummaryTransaction) :
    lastPaymentDateOf (t :: ts)
      = some (ts.foldl (fun x u => max x u.payment_date) t.payment_date) := by
  unfold lastPaymentDateOf
  simp only [List.foldl_cons, lastFold_some]

theorem lastPaymentDateOf_eq_none_iff (txs : List SummaryTransaction) :
    lastPaymentDateOf txs = none ↔ txs = [] := by
  cases txs with
  | nil => simp [lastPaymentDateOf]
  | cons t ts => simp [lastPaymentDateOf_cons]

theorem foldl_max_spec (l : List SummaryTransaction) (d : ℤ) :
    (l.foldl (fun x t => max x t.payment_date) d = d
      ∨ l.foldl (fun x t => max x t.payment_date) d
          ∈ l.map (fun t => t.payment_date)) ∧
    d ≤ l.foldl (fun x t => max x t.payment_date) d ∧
    ∀ e ∈ l.map (fun t => t.payment_date),
      e ≤ l.foldl (fun x t => max x t.payment_date) d := by
  induction l generalizing d with
  | nil => simp
  | cons t ts ih =>
    obtain ⟨hmem, hle, hub⟩ := ih (max d t.payment_date)
    simp only [List.foldl_cons, List.map_cons, List.mem_cons]
    refine ⟨?_, ?_, ?_⟩
    · rcases hmem with h | h
      · rcases max_choice d t.payment_date with hm | hm
        · left; rw [h, hm]
        · right; left; rw [h, hm]
      · right; right; exact h
    · exact le_trans (le_max_left d t.payment_date) hle
    · intro e he
      rcases he with he | he
      · rw [he]; exact le_trans (le_max_right d t.payment_date) hle
      · exact hub e he

/-- An `interest`-kind summary transaction dated 5. -/
def summaryTxInterest : SummaryTransaction :=
  { amount := 100, payment_date := 5, transaction_type := "interest" }

/-- A mahajan whose only transaction is the `interest`-kind one above. -/
def mahajanInterestOnly : MahajanRow :=
  ⟨"m1", "M", [⟨"b1", 1000, true, [summaryTxInterest]⟩]⟩

/-- C8, counterexample: for an account whose only transaction is of kind
`interest`, the spec's payment-kind-only reading yields no last payment
date, but the aggregation reports `some 5` — the summary query selects no
`transaction_type` and the code takes the maximum over ALL transactions. -/
theorem c8_kind_blind_counterexample :
    (processMahajan mahajanInterestOnly).last_payment_date = some 5 ∧
    specLastPaymentDate (allTransactionsOf mahajanInterestOnly) = none := by
  constructor
  · show lastPaymentDateOf (allTransactionsOf mahajanInterestOnly) = some 5
    simp [allTransactionsOf, mahajanInterestOnly, lastPaymentDateOf_cons,
      summaryTxInterest]
  · simp [specLastPaymentDate, allTransactionsOf, mahajanInterestOnly,
      summaryTxInterest, lastPaymentDateOf]

/-- C8, amended: the last payment date reported per account is the maximum
`payment_date` across ALL of the account's transactions regardless of kind
(the query does not even select the kind), and it is absent exactly when the
account has no transactions at all. -/
theorem c8_last_payment_date (m : MahajanRow) :
    ((processMahajan m).last_payment_date = none ↔ allTransactionsOf m = []) ∧
    ∀ d, (processMahajan m).last_payment_date = some d →
      d ∈ (allTransactionsOf m).map (fun t => t.payment_date) ∧
      ∀ e ∈ (allTransactionsOf m).map (fun t => t.payment_date), e ≤ d := by
  have hproc : (processMahajan m).last_payment_date
      = lastPaymentDateOf (allTransactionsOf m) := rfl
  rw [hproc]
  refine ⟨lastPaymentDateOf_eq_none_iff _, ?_⟩
  intro d hd
  cases htx : allTransactionsOf m with
  | nil => rw [htx] at hd; simp [lastPaymentDateOf] at hd
  | cons t ts =>
    rw [htx, lastPaymentDateOf_cons] at hd
    obtain ⟨hmem, hle, hub⟩ := foldl_max_spec ts t.payment_date
    have hdm : ts.foldl (fun x u => max x u.payment_date) t.payment_date = d :=
      Option.some.inj hd
    rw [← hdm]
    simp only [List.map_cons, List.mem_cons]
    refine ⟨?_, ?_⟩
    · rcases hmem with h | h
      · left; exact h
      · right; exact h
    · intro e he
      rcases he with he | he
      · rw [he]; exact hle
      · exact hub e he

/-- C8, witness: the amended characterisation evaluated on the concrete
account above — `5` is a transaction date and bounds every transaction date. -/
theorem c8_last_payment_date_witness :
    (5 : ℤ) ∈ (allTransactionsOf mahajanInterestOnly).map
        (fun t => t.payment_date) ∧
    ∀ e ∈ (allTransactionsOf mahajanInterestOnly).map
        (fun t => t.payment_date), e ≤ 5 :=
  (c8_last_payment_date mahajanInterestOnly).2 5
    (by simp [allTransactionsOf, mahajanInterestOnly, lastPaymentDateOf_cons,
      summaryTxInterest, processMahajan])

/-- C10: with both a from-date and a to-date specified, a summary row is in
the filtered output iff it was among the processed rows and its last payment
date exists and lies in the closed interval `[fromDate, toDate]`; and the
aggregate of any account with no transactions at all (whose last payment
date is therefore absent) is never in the output, whatever the range. -/
theorem c10_date_range_filter (rows : List MahajanSummaryData) (lo hi : ℤ)
    (row : MahajanSummaryData) :
    (row ∈ filterByDateRange rows lo hi ↔
      row ∈ rows ∧ ∃ d, row.last_payment_date = some d ∧ lo ≤ d ∧ d ≤ hi) ∧
    ∀ m : MahajanRow, allTransactionsOf m = [] →
      processMahajan m ∉ filterByDateRange rows lo hi := by
  constructor
  · unfold filterByDateRange
    rw [List.mem_filter]
    constructor
    · rintro ⟨hmem, hp⟩
      refine ⟨hmem, ?_⟩
      cases hl : row.last_payment_date with
      | none => rw [hl] at hp; simp at hp
      | some d =>
        rw [hl] at hp
        simp only [decide_eq_true_eq] at hp
        exact ⟨d, rfl, hp.1, hp.2⟩
    · rintro ⟨hmem, d, hl, hlo, hhi⟩
      refine ⟨hmem, ?_⟩
      rw [hl]
      simp only [decide_eq_true_eq]
      exact ⟨hlo, hhi⟩
  · intro m hm hmem
    have hnone : (processMahajan m).last_payment_date = none := by
      show lastPaymentDateOf (allTransactionsOf m) = none
      rw [hm]
      rfl
    unfold filterByDateRange at hmem
    rw [List.mem_filter, hnone] at hmem
    exact absurd hmem.2 (by simp)

/-- C10, witness: the filter at concrete inputs — a row with last payment
date 5 is kept by the range `[0, 10]` it lies in, and the aggregate of a
transaction-less account is excluded. -/
theorem c10_date_range_filter_witness :
    ((processMahajan mahajanInterestOnly)
        ∈ filterByDateRange [processMahajan mahajanInterestOnly] 0 10 ↔
      processMahajan mahajanInterestOnly ∈ [processMahajan mahajanInterestOnly]
        ∧ ∃ d, (processMahajan mahajanInterestOnly).last_payment_date = some d
            ∧ 0 ≤ d ∧ d ≤ 10) ∧
    processMahajan ⟨"m3", "P", []⟩
      ∉ filterByDateRange [processMahajan mahajanInterestOnly] 0 10 :=
  ⟨(c10_date_range_filter [processMahajan mahajanInterestOnly] 0 10
      (processMahajan mahajanInterestOnly)).1,
   (c10_date_range_filter [processMahajan mahajanInterestOnly] 0 10
      (processMahajan mahajanInterestOnly)).2 ⟨"m3", "P", []⟩ rfl⟩

end GSSteel
